import Mathlib

/-!
# Flight-record protocol enumerations

Shallow embedding of `dji-flightrecordengine/source/FlightRecordProtocolEnum.h`.

The header declares one plain C enumeration, `FlightRecordDataType`, whose
enumerators carry explicit initialisers except for the last one, and, inside
`namespace DJI::FlightRecord`, five scoped enumerations with fixed underlying
types together with three plain structs.

* A C enumeration is embedded as an inductive type of its enumerators, the list
  of the enumerators in declaration order, the initialiser written next to each
  enumerator (`none` where the source writes none) and the numbering rule of the
  language (`enumValues`), which computes the value of every enumerator.
* A scoped enumeration whose enumerators all have initialisers is embedded as an
  inductive type with its `value` function and the width of its underlying type.
* Machine integers are `Nat`/`Int`; conversions to a fixed width are explicit
  reductions modulo `2^w`.
-/

/-! ## `FlightRecordDataType` (source lines 14-104) -/

/-- Enumerators of the C enumeration `FlightRecordDataType`, in declaration order. -/
inductive FlightRecordDataType where
  | LineEndFlightRecordDataType
  | OSDFlightRecordDataType
  | OSDHomeFlightRecordDataType
  | GimbalFlightRecordDataType
  | RCFlightRecordDataType
  | CustomFlightRecordDataType
  | MCTripodStateFlightRecordDataType
  | CenterBatteryFlightRecordDataType
  | PushedBatteryFlightRecordDataType
  | ShowTipsFlightRecordDataType
  | ShowWarningFlightRecordDataType
  | RCPushGPSFlightRecordDataType
  | RCDebugDataType
  | RecoverInfoDataType
  | AppLocationDataType
  | FirmwareVersionType
  | OFDMDebugDataType
  | VisionGroupDataType
  | VisionWaringStringDataType
  | MCParamDataType
  | APPOperationDataType
  | AGOSDDataType
  | SmartBatteryGroupDataType
  | ShowSeriousWarningFlightRecordDataType
  | CameraInfoFlightRecordDataType
  | ADSBFlightDataDataType
  | ADSBFlightOriginalDataType
  | FlyForbidDBuuidDataType
  | AppSpecialControlJoyStickDataType
  | AppLowFreqCustomDataType
  | NavigationModeGroupedDataType
  | GSMissionStatusDataType
  | AppVirtualStickDataType
  | GSMissionEventDataType
  | WaypointMissionUploadDataType
  | WaypointUploadDataType
  | WaypointMissionDownloadDataType
  | WaypointDownloadDataType
  | ComponentSerialNumberDataType
  | AgricultureDisplayField
  | AgricultureMg1sAvoidanceRadarPush_Recover
  | AgricultureRadarPush
  | AgricultureSpray
  | RTKDifferenceDataType
  | AgricultureFarmMissionInfo
  | AgricultureFarmTaskTeamDataType
  | AgricultureGroundStationPushData
  | AgricultureOFDMRadioSignalPush
  | FlightRecordRecover
  | FlySafeLimitInfoDataType
  | FlySafeUnlockLicenseUserActionInfoDataType
  | FlightHubInfoDataType
  | GOBusinessDataType
  | npzeXkozKlNHPjUQ
  | KeyStorage
  | GOAirLinkDataField
  | HealthGroupDataType
  | FCIMUInfoDataType
  | NavigationDataType
  | PerceptionGroupDataType
  | RemoteControllerDisplayField
  | FlightControllerCommonOSDField
  | FlightRecordTypeSummaryData
  | FlightRecordTypeFrameData
  | FlightRecordTypeKindNum
  deriving DecidableEq, Repr

namespace FlightRecordDataType

/-- The initialiser the source writes after each enumerator; `none` for the one
enumerator declared without `= value` (line 102). -/
def initializer : FlightRecordDataType → Option Int
  | LineEndFlightRecordDataType => some (-1)
  | OSDFlightRecordDataType => some 1
  | OSDHomeFlightRecordDataType => some 2
  | GimbalFlightRecordDataType => some 3
  | RCFlightRecordDataType => some 4
  | CustomFlightRecordDataType => some 5
  | MCTripodStateFlightRecordDataType => some 6
  | CenterBatteryFlightRecordDataType => some 7
  | PushedBatteryFlightRecordDataType => some 8
  | ShowTipsFlightRecordDataType => some 9
  | ShowWarningFlightRecordDataType => some 10
  | RCPushGPSFlightRecordDataType => some 11
  | RCDebugDataType => some 12
  | RecoverInfoDataType => some 13
  | AppLocationDataType => some 14
  | FirmwareVersionType => some 15
  | OFDMDebugDataType => some 16
  | VisionGroupDataType => some 17
  | VisionWaringStringDataType => some 18
  | MCParamDataType => some 19
  | APPOperationDataType => some 20
  | AGOSDDataType => some 21
  | SmartBatteryGroupDataType => some 22
  | ShowSeriousWarningFlightRecordDataType => some 24
  | CameraInfoFlightRecordDataType => some 25
  | ADSBFlightDataDataType => some 26
  | ADSBFlightOriginalDataType => some 27
  | FlyForbidDBuuidDataType => some 28
  | AppSpecialControlJoyStickDataType => some 29
  | AppLowFreqCustomDataType => some 30
  | NavigationModeGroupedDataType => some 31
  | GSMissionStatusDataType => some 32
  | AppVirtualStickDataType => some 33
  | GSMissionEventDataType => some 34
  | WaypointMissionUploadDataType => some 35
  | WaypointUploadDataType => some 36
  | WaypointMissionDownloadDataType => some 38
  | WaypointDownloadDataType => some 39
  | ComponentSerialNumberDataType => some 40
  | AgricultureDisplayField => some 41
  | AgricultureMg1sAvoidanceRadarPush_Recover => some 42
  | AgricultureRadarPush => some 43
  | AgricultureSpray => some 44
  | RTKDifferenceDataType => some 45
  | AgricultureFarmMissionInfo => some 46
  | AgricultureFarmTaskTeamDataType => some 47
  | AgricultureGroundStationPushData => some 48
  | AgricultureOFDMRadioSignalPush => some 49
  | FlightRecordRecover => some 50
  | FlySafeLimitInfoDataType => some 51
  | FlySafeUnlockLicenseUserActionInfoDataType => some 52
  | FlightHubInfoDataType => some 53
  | GOBusinessDataType => some 54
  | npzeXkozKlNHPjUQ => some 55
  | KeyStorage => some 56
  | GOAirLinkDataField => some 57
  | HealthGroupDataType => some 58
  | FCIMUInfoDataType => some 59
  | NavigationDataType => some 60
  | PerceptionGroupDataType => some 61
  | RemoteControllerDisplayField => some 62
  | FlightControllerCommonOSDField => some 63
  | FlightRecordTypeSummaryData => some 0xFD
  | FlightRecordTypeFrameData => some 0xFE
  | FlightRecordTypeKindNum => none

/-- The enumerators in the order in which the source declares them. -/
def enumerators : List FlightRecordDataType :=
  [ LineEndFlightRecordDataType,
    OSDFlightRecordDataType, OSDHomeFlightRecordDataType, GimbalFlightRecordDataType,
    RCFlightRecordDataType, CustomFlightRecordDataType, MCTripodStateFlightRecordDataType,
    CenterBatteryFlightRecordDataType, PushedBatteryFlightRecordDataType,
    ShowTipsFlightRecordDataType, ShowWarningFlightRecordDataType,
    RCPushGPSFlightRecordDataType, RCDebugDataType, RecoverInfoDataType,
    AppLocationDataType, FirmwareVersionType, OFDMDebugDataType,
    VisionGroupDataType, VisionWaringStringDataType, MCParamDataType, APPOperationDataType,
    AGOSDDataType,
    SmartBatteryGroupDataType,
    ShowSeriousWarningFlightRecordDataType,
    CameraInfoFlightRecordDataType,
    ADSBFlightDataDataType, ADSBFlightOriginalDataType,
    FlyForbidDBuuidDataType, AppSpecialControlJoyStickDataType,
    AppLowFreqCustomDataType,
    NavigationModeGroupedDataType, GSMissionStatusDataType, AppVirtualStickDataType,
    GSMissionEventDataType, WaypointMissionUploadDataType, WaypointUploadDataType,
    WaypointMissionDownloadDataType, WaypointDownloadDataType,
    ComponentSerialNumberDataType,
    AgricultureDisplayField,
    AgricultureMg1sAvoidanceRadarPush_Recover, AgricultureRadarPush, AgricultureSpray,
    RTKDifferenceDataType, AgricultureFarmMissionInfo, AgricultureFarmTaskTeamDataType,
    AgricultureGroundStationPushData, AgricultureOFDMRadioSignalPush, FlightRecordRecover,
    FlySafeLimitInfoDataType, FlySafeUnlockLicenseUserActionInfoDataType,
    FlightHubInfoDataType,
    GOBusinessDataType,
    npzeXkozKlNHPjUQ, KeyStorage,
    GOAirLinkDataField, HealthGroupDataType, FCIMUInfoDataType, NavigationDataType,
    PerceptionGroupDataType, RemoteControllerDisplayField,
    FlightControllerCommonOSDField,
    FlightRecordTypeSummaryData,
    FlightRecordTypeFrameData,
    FlightRecordTypeKindNum ]

end FlightRecordDataType

/-- Numbering rule of a C enumeration: an enumerator with an initialiser takes
that value; one without takes the value of the preceding enumerator plus one,
and `0` when it is the first. `next` is the value an enumerator without an
initialiser would receive at this point of the declaration. -/
def enumValues {α : Type} (init : α → Option Int) : List α → Int → List (α × Int)
  | [], _ => []
  | e :: es, next =>
    let v := (init e).getD next
    (e, v) :: enumValues init es (v + 1)

namespace FlightRecordDataType

/-- The enumerators paired with their integer values, as the numbering rule
assigns them over the whole declaration. -/
def table : List (FlightRecordDataType × Int) :=
  enumValues initializer enumerators 0

/-- Integer value of an enumerator. -/
def value (t : FlightRecordDataType) : Int :=
  (table.lookup t).getD 0

/-- Telemetry tags: the enumerators of source lines 17-94, that is every
enumerator except the end sentinel, the two reserved tags and the upper
sentinel. -/
def isTelemetry (t : FlightRecordDataType) : Bool :=
  decide (t ≠ LineEndFlightRecordDataType ∧ t ≠ FlightRecordTypeSummaryData ∧
    t ≠ FlightRecordTypeFrameData ∧ t ≠ FlightRecordTypeKindNum)

end FlightRecordDataType

/-! ## Fixed-width conversions -/

/-- Conversion of an integer to an unsigned `w`-bit integer: reduction modulo `2^w`. -/
def toUnsigned (w : Nat) (v : Int) : Int :=
  v % 2 ^ w

/-- Conversion of an integer to a signed `w`-bit integer (two's complement): the
unsigned reduction, read as negative when its top bit is set. -/
def toSigned (w : Nat) (v : Int) : Int :=
  if toUnsigned w v < 2 ^ (w - 1) then toUnsigned w v else toUnsigned w v - 2 ^ w

/-! ## `namespace DJI::FlightRecord` (source lines 106-167) -/

namespace DJI.FlightRecord

/-- Scoped enumeration `VersionCategory : uint16_t` (lines 108-116). -/
inductive VersionCategory where
  | None
  | BelowVersion11
  | Version12
  | Version13_1
  | Version13_2
  deriving DecidableEq, Repr

namespace VersionCategory

/-- Width in bits of the underlying type `uint16_t`. -/
def bits : Nat := 16

/-- Numeric value of an enumerator. -/
def value : VersionCategory → Nat
  | None => 0
  | BelowVersion11 => 1
  | Version12 => 2
  | Version13_1 => 3
  | Version13_2 => 4

/-- The enumerators in declaration order. -/
def enumerators : List VersionCategory :=
  [None, BelowVersion11, Version12, Version13_1, Version13_2]

/-- Position of an enumerator in the declaration. -/
def position (v : VersionCategory) : Nat :=
  enumerators.indexOf v

end VersionCategory

/-- Scoped enumeration `PostSaleCategory : uint8_t` (lines 117-121). -/
inductive PostSaleCategory where
  | None
  | RapidChange
  deriving DecidableEq, Repr

namespace PostSaleCategory

/-- Width in bits of the underlying type `uint8_t`. -/
def bits : Nat := 8

/-- Numeric value of an enumerator. -/
def value : PostSaleCategory → Nat
  | None => 0
  | RapidChange => 1

end PostSaleCategory

/-- Scoped enumeration `Department : uint8_t` (lines 123-133). -/
inductive Department where
  | Unknown
  | SDK
  | DJIGO
  | DJIFly
  | AgriculturalMachinery
  | Terra
  | DJIGlasses
  | DJIPilot
  | GSPro
  deriving DecidableEq, Repr

namespace Department

/-- Width in bits of the underlying type `uint8_t`. -/
def bits : Nat := 8

/-- Numeric value of an enumerator. -/
def value : Department → Nat
  | Unknown => 0
  | SDK => 1
  | DJIGO => 2
  | DJIFly => 3
  | AgriculturalMachinery => 4
  | Terra => 5
  | DJIGlasses => 6
  | DJIPilot => 7
  | GSPro => 8

end Department

/-- Struct `VersionExtension` (lines 135-138). -/
structure VersionExtension where
  version : VersionCategory
  department : Department
  deriving DecidableEq, Repr

/-- Struct `PostSaleExtension` (lines 140-143); `data` is a `uint8_t`. -/
structure PostSaleExtension where
  postsale : PostSaleCategory
  data : Nat
  deriving DecidableEq, Repr

/-- Scoped enumeration `Platform : uint8_t` (lines 145-154). -/
inductive Platform where
  | Unknown
  | iOS
  | Android
  | Fly
  | Window
  | Mac
  | Linux
  deriving DecidableEq, Repr

namespace Platform

/-- Width in bits of the underlying type `uint8_t`. -/
def bits : Nat := 8

/-- Numeric value of an enumerator. -/
def value : Platform → Nat
  | Unknown => 0
  | iOS => 1
  | Android => 2
  | Fly => 6
  | Window => 10
  | Mac => 11
  | Linux => 12

/-- The enumerators in declaration order. -/
def enumerators : List Platform :=
  [Unknown, iOS, Android, Fly, Window, Mac, Linux]

end Platform

/-- Struct `FRSubTypeBody` (lines 156-159): a `uint16_t` discriminant followed
by the bytes of a flexible array member. -/
structure FRSubTypeBody where
  subtype : Nat
  data : List Nat
  deriving DecidableEq, Repr

/-- Storing an integer discriminant and payload bytes in an `FRSubTypeBody`: the
discriminant is converted to `uint16_t` and every payload element to `uint8_t`. -/
def FRSubTypeBody.store (subtype : Nat) (data : List Nat) : FRSubTypeBody :=
  { subtype := subtype % 2 ^ 16, data := data.map (fun b => b % 2 ^ 8) }

/-- Scoped enumeration `FCCommonOSDSubType : uint16_t` (lines 161-164). -/
inductive FCCommonOSDSubType where
  | BatteryOSD
  | CountDownInfo
  deriving DecidableEq, Repr

namespace FCCommonOSDSubType

/-- Width in bits of the underlying type `uint16_t`. -/
def bits : Nat := 16

/-- Numeric value of an enumerator. -/
def value : FCCommonOSDSubType → Nat
  | BatteryOSD => 0
  | CountDownInfo => 1

end FCCommonOSDSubType

end DJI.FlightRecord

/-! ## Auxiliary facts about `FlightRecordDataType` -/

namespace FlightRecordDataType

theorem mem_enumerators (t : FlightRecordDataType) : t ∈ enumerators := by
  cases t <;> decide

theorem lookup_table (t : FlightRecordDataType) : table.lookup t = some t.value := by
  cases t <;> decide

set_option maxRecDepth 200000 in
/-- Distinct enumerators other than the upper sentinel differ in the low byte of
their values. -/
theorem byte_injective_on_enumerators :
    ∀ a ∈ enumerators, ∀ b ∈ enumerators,
      a ≠ FlightRecordTypeKindNum → b ≠ FlightRecordTypeKindNum →
      toUnsigned 8 a.value = toUnsigned 8 b.value → a = b := by
  decide

end FlightRecordDataType

/-! ## The tag space of `FlightRecordDataType` -/

open FlightRecordDataType

/-- C1. The end sentinel has value -1; every other enumerator of
`FlightRecordDataType` (telemetry tag, reserved tag or upper sentinel) has a
different, non-negative value, so the end sentinel is the only enumerator with
a negative value. -/
theorem sentinel_exclusive (t : FlightRecordDataType)
    (h : t ≠ LineEndFlightRecordDataType) :
    LineEndFlightRecordDataType.value = -1 ∧
    t.value ≠ LineEndFlightRecordDataType.value ∧
    0 ≤ t.value ∧
    ∀ u : FlightRecordDataType, u.value < 0 ↔ u = LineEndFlightRecordDataType := by
  refine ⟨by decide, ?_, ?_, ?_⟩
  · cases t <;> first | exact absurd rfl h | decide
  · cases t <;> first | exact absurd rfl h | decide
  · intro u
    cases u <;> decide

/-- C1 at the upper sentinel `FlightRecordTypeKindNum`, whose value 255 is not -1. -/
theorem sentinel_exclusive_witness :
    FlightRecordTypeKindNum ≠ LineEndFlightRecordDataType ∧
    (LineEndFlightRecordDataType.value = -1 ∧
    FlightRecordTypeKindNum.value ≠ LineEndFlightRecordDataType.value ∧
    0 ≤ FlightRecordTypeKindNum.value ∧
    ∀ u : FlightRecordDataType, u.value < 0 ↔ u = LineEndFlightRecordDataType) :=
  ⟨by decide, sentinel_exclusive FlightRecordTypeKindNum (by decide)⟩

/-- C2. Every enumerator other than the end sentinel and the upper sentinel
`FlightRecordTypeKindNum` has a value in `[1, value FlightRecordTypeKindNum)`;
in particular no such tag has the value of `FlightRecordTypeKindNum`. -/
theorem upper_bound_validity (t : FlightRecordDataType)
    (h₁ : t ≠ LineEndFlightRecordDataType) (h₂ : t ≠ FlightRecordTypeKindNum) :
    1 ≤ t.value ∧ t.value < FlightRecordTypeKindNum.value ∧
    t.value ≠ FlightRecordTypeKindNum.value := by
  cases t <;> first | exact absurd rfl h₁ | exact absurd rfl h₂ | decide

/-- C2 at `FlightRecordTypeFrameData`, the largest tag below the upper sentinel. -/
theorem upper_bound_validity_witness :
    FlightRecordTypeFrameData ≠ LineEndFlightRecordDataType ∧
    FlightRecordTypeFrameData ≠ FlightRecordTypeKindNum ∧
    (1 ≤ FlightRecordTypeFrameData.value ∧
    FlightRecordTypeFrameData.value < FlightRecordTypeKindNum.value ∧
    FlightRecordTypeFrameData.value ≠ FlightRecordTypeKindNum.value) :=
  ⟨by decide, by decide,
    upper_bound_validity FlightRecordTypeFrameData (by decide) (by decide)⟩

/-- C3, as stated, fails at 23 and at 37: both integers lie in `1..63` and
neither is the value of a telemetry enumerator (the source numbers 22 and then
24, 36 and then 38). -/
theorem assigned_range_gaps :
    ((1 : Int) ≤ 23 ∧ (23 : Int) ≤ 63 ∧
      ¬ ∃ t : FlightRecordDataType, t.isTelemetry = true ∧ t.value = 23) ∧
    ((1 : Int) ≤ 37 ∧ (37 : Int) ≤ 63 ∧
      ¬ ∃ t : FlightRecordDataType, t.isTelemetry = true ∧ t.value = 37) := by
  refine ⟨⟨by decide, by decide, ?_⟩, ⟨by decide, by decide, ?_⟩⟩
  · rintro ⟨t, _, ht⟩
    revert ht
    cases t <;> decide
  · rintro ⟨t, _, ht⟩
    revert ht
    cases t <;> decide

/-- C3, amended. An integer is the value of a telemetry enumerator exactly when
it lies in `1..63` and is neither 23 nor 37. -/
theorem assigned_range (n : Int) :
    (∃ e : FlightRecordDataType, e.isTelemetry = true ∧ e.value = n) ↔
      (1 ≤ n ∧ n ≤ 63 ∧ n ≠ 23 ∧ n ≠ 37) := by
  constructor
  · rintro ⟨e, he, rfl⟩
    revert he
    cases e <;> decide
  · rintro ⟨h₁, h₂, h₃, h₄⟩
    have key : ∀ k : Fin 64, 1 ≤ k.val → k.val ≠ 23 → k.val ≠ 37 →
        ∃ e ∈ enumerators, e.isTelemetry = true ∧ e.value = (k.val : Int) := by
      decide
    obtain ⟨e, -, he⟩ := key ⟨n.toNat, by omega⟩ (by simp; omega) (by simp; omega)
      (by simp; omega)
    refine ⟨e, he.1, ?_⟩
    rw [he.2]
    simp
    omega

/-- C4. The reserved tags have the values 0xFD and 0xFE; they differ from each
other and from every telemetry tag, and they are the only enumerators whose
value lies strictly between 63 and the value of `FlightRecordTypeKindNum`. -/
theorem reserved_tags (t : FlightRecordDataType) (h : t.isTelemetry = true) :
    FlightRecordTypeSummaryData.value = 253 ∧
    FlightRecordTypeFrameData.value = 254 ∧
    FlightRecordTypeSummaryData.value ≠ FlightRecordTypeFrameData.value ∧
    t.value ≠ FlightRecordTypeSummaryData.value ∧
    t.value ≠ FlightRecordTypeFrameData.value ∧
    ∀ u : FlightRecordDataType,
      (63 < u.value ∧ u.value < FlightRecordTypeKindNum.value) ↔
        (u = FlightRecordTypeSummaryData ∨ u = FlightRecordTypeFrameData) := by
  refine ⟨by decide, by decide, by decide, ?_, ?_, ?_⟩
  · revert h
    cases t <;> decide
  · revert h
    cases t <;> decide
  · intro u
    cases u <;> decide

/-- C4 at the telemetry tag `FlightControllerCommonOSDField`. -/
theorem reserved_tags_witness :
    FlightControllerCommonOSDField.isTelemetry = true ∧
    (FlightRecordTypeSummaryData.value = 253 ∧
    FlightRecordTypeFrameData.value = 254 ∧
    FlightRecordTypeSummaryData.value ≠ FlightRecordTypeFrameData.value ∧
    FlightControllerCommonOSDField.value ≠ FlightRecordTypeSummaryData.value ∧
    FlightControllerCommonOSDField.value ≠ FlightRecordTypeFrameData.value ∧
    ∀ u : FlightRecordDataType,
      (63 < u.value ∧ u.value < FlightRecordTypeKindNum.value) ↔
        (u = FlightRecordTypeSummaryData ∨ u = FlightRecordTypeFrameData)) :=
  ⟨by decide, reserved_tags FlightControllerCommonOSDField (by decide)⟩

/-- C9. Two distinct enumerators other than `FlightRecordTypeKindNum` have
values that differ modulo 256, so a single tag byte determines at most one
transmitted tag; the byte of the end sentinel is 0xFF. -/
theorem wire_byte_unambiguous (a b : FlightRecordDataType)
    (ha : a ≠ FlightRecordTypeKindNum) (hb : b ≠ FlightRecordTypeKindNum)
    (hab : a ≠ b) :
    toUnsigned 8 a.value ≠ toUnsigned 8 b.value ∧
    toUnsigned 8 LineEndFlightRecordDataType.value = 0xFF := by
  refine ⟨fun h => hab ?_, by decide⟩
  exact byte_injective_on_enumerators a (mem_enumerators a) b (mem_enumerators b) ha hb h

/-- C9 at the end sentinel (byte 0xFF) and `FlightRecordTypeFrameData` (byte 0xFE). -/
theorem wire_byte_unambiguous_witness :
    LineEndFlightRecordDataType ≠ FlightRecordTypeKindNum ∧
    FlightRecordTypeFrameData ≠ FlightRecordTypeKindNum ∧
    LineEndFlightRecordDataType ≠ FlightRecordTypeFrameData ∧
    (toUnsigned 8 LineEndFlightRecordDataType.value ≠
        toUnsigned 8 FlightRecordTypeFrameData.value ∧
      toUnsigned 8 LineEndFlightRecordDataType.value = 0xFF) :=
  ⟨by decide, by decide, by decide,
    wire_byte_unambiguous LineEndFlightRecordDataType FlightRecordTypeFrameData
      (by decide) (by decide) (by decide)⟩

/-- C10. `FlightRecordTypeKindNum` has no initialiser and receives the value of
`FlightRecordTypeFrameData` plus one, 255; converted to a signed 8-bit integer
it equals -1, the value of `LineEndFlightRecordDataType`, and both have the
byte 0xFF, while as integers and as 16-bit values the two differ. -/
theorem upper_sentinel_byte_collision :
    FlightRecordTypeKindNum.initializer = none ∧
    FlightRecordTypeKindNum.value = FlightRecordTypeFrameData.value + 1 ∧
    FlightRecordTypeKindNum.value = 0xFF ∧
    toSigned 8 FlightRecordTypeKindNum.value = -1 ∧
    toSigned 8 FlightRecordTypeKindNum.value = LineEndFlightRecordDataType.value ∧
    toUnsigned 8 FlightRecordTypeKindNum.value =
      toUnsigned 8 LineEndFlightRecordDataType.value ∧
    FlightRecordTypeKindNum.value ≠ LineEndFlightRecordDataType.value ∧
    toSigned 16 FlightRecordTypeKindNum.value ≠
      toSigned 16 LineEndFlightRecordDataType.value ∧
    toUnsigned 16 FlightRecordTypeKindNum.value ≠
      toUnsigned 16 LineEndFlightRecordDataType.value := by
  decide

/-! ## The enumerations of `namespace DJI::FlightRecord` -/

open DJI.FlightRecord

/-- C5. The values of `VersionCategory` increase strictly along None,
BelowVersion11, Version12, Version13_1, Version13_2; every enumerator is one of
these five and its value fits the 16-bit underlying type; the numeric test
"introduced at Version13_1 <= stream at BelowVersion11" is false; and for any
two categories the numeric order of their values agrees with the order of their
positions in the declaration. -/
theorem version_ordering (a b : VersionCategory) :
    (VersionCategory.None.value < VersionCategory.BelowVersion11.value ∧
      VersionCategory.BelowVersion11.value < VersionCategory.Version12.value ∧
      VersionCategory.Version12.value < VersionCategory.Version13_1.value ∧
      VersionCategory.Version13_1.value < VersionCategory.Version13_2.value) ∧
    (a = VersionCategory.None ∨ a = VersionCategory.BelowVersion11 ∨
      a = VersionCategory.Version12 ∨ a = VersionCategory.Version13_1 ∨
      a = VersionCategory.Version13_2) ∧
    a.value < 2 ^ VersionCategory.bits ∧
    VersionCategory.BelowVersion11.value < VersionCategory.Version13_1.value ∧
    ¬ (VersionCategory.Version13_1.value ≤ VersionCategory.BelowVersion11.value) ∧
    (a.value ≤ b.value ↔ a.position ≤ b.position) ∧
    (a.value < b.value ↔ a.position < b.position) := by
  refine ⟨by decide, ?_, ?_, by decide, by decide, ?_, ?_⟩
  · cases a <;> decide
  · cases a <;> decide
  · cases a <;> cases b <;> decide
  · cases a <;> cases b <;> decide

/-- C6. `FlightControllerCommonOSDField` has value 63; BatteryOSD and
CountDownInfo have the values 0 and 1 and are different subtypes; a 16-bit
value names a subtype of `FCCommonOSDSubType` exactly when it is 0 or 1; and
every 16-bit value, named or not, is kept unchanged by the `uint16_t` subtype
field of `FRSubTypeBody`. -/
theorem subtype_resolution (s : Nat) (data : List Nat) (hs : s < 2 ^ 16) :
    FlightControllerCommonOSDField.value = 63 ∧
    FCCommonOSDSubType.bits = 16 ∧
    FCCommonOSDSubType.BatteryOSD.value = 0 ∧
    FCCommonOSDSubType.CountDownInfo.value = 1 ∧
    FCCommonOSDSubType.BatteryOSD ≠ FCCommonOSDSubType.CountDownInfo ∧
    ((∃ e : FCCommonOSDSubType, e.value = s) ↔ (s = 0 ∨ s = 1)) ∧
    (FRSubTypeBody.store s data).subtype = s := by
  refine ⟨by decide, rfl, rfl, rfl, by decide, ⟨?_, ?_⟩, ?_⟩
  · rintro ⟨e, rfl⟩
    cases e <;> decide
  · rintro (rfl | rfl)
    · exact ⟨FCCommonOSDSubType.BatteryOSD, rfl⟩
    · exact ⟨FCCommonOSDSubType.CountDownInfo, rfl⟩
  · exact Nat.mod_eq_of_lt hs

/-- C6 at the unrecognised subtype 99: it names no subtype and is stored
unchanged. -/
theorem subtype_resolution_witness :
    99 < 2 ^ 16 ∧
    (FlightControllerCommonOSDField.value = 63 ∧
    FCCommonOSDSubType.bits = 16 ∧
    FCCommonOSDSubType.BatteryOSD.value = 0 ∧
    FCCommonOSDSubType.CountDownInfo.value = 1 ∧
    FCCommonOSDSubType.BatteryOSD ≠ FCCommonOSDSubType.CountDownInfo ∧
    ((∃ e : FCCommonOSDSubType, e.value = 99) ↔ (99 = 0 ∨ 99 = 1)) ∧
    (FRSubTypeBody.store 99 [7, 8]).subtype = 99) :=
  ⟨by decide, subtype_resolution 99 [7, 8] (by decide)⟩

/-- C7. `Platform` has exactly the seven enumerators Unknown, iOS, Android, Fly,
Window, Mac and Linux, with the values 0, 1, 2, 6, 10, 11 and 12; the values are
pairwise distinct and fit the 8-bit underlying type; a number names a platform
exactly when it is one of these seven values. -/
theorem platform_set (b : Nat) (p q : Platform) :
    Platform.enumerators.length = 7 ∧
    Platform.enumerators.Nodup ∧
    p ∈ Platform.enumerators ∧
    Platform.enumerators.map Platform.value = [0, 1, 2, 6, 10, 11, 12] ∧
    (p.value = q.value ↔ p = q) ∧
    p.value < 2 ^ Platform.bits ∧
    ((∃ e : Platform, e.value = b) ↔ b ∈ [0, 1, 2, 6, 10, 11, 12]) := by
  refine ⟨rfl, by decide, ?_, rfl, ?_, ?_, ⟨?_, ?_⟩⟩
  · cases p <;> decide
  · cases p <;> cases q <;> decide
  · cases p <;> decide
  · rintro ⟨e, rfl⟩
    cases e <;> decide
  · intro hb
    simp only [List.mem_cons, List.mem_singleton, List.not_mem_nil, or_false] at hb
    rcases hb with rfl | rfl | rfl | rfl | rfl | rfl | rfl
    · exact ⟨Platform.Unknown, rfl⟩
    · exact ⟨Platform.iOS, rfl⟩
    · exact ⟨Platform.Android, rfl⟩
    · exact ⟨Platform.Fly, rfl⟩
    · exact ⟨Platform.Window, rfl⟩
    · exact ⟨Platform.Mac, rfl⟩
    · exact ⟨Platform.Linux, rfl⟩

/-- C8. In `VersionCategory`, `Department`, `PostSaleCategory` and `Platform`
the enumerator of value 0 is `None`, `Unknown`, `None` and `Unknown`
respectively, and no other enumerator has value 0; hence the extension values
whose fields are all zero are `VersionExtension = (None, Unknown)` and
`PostSaleExtension = (None, 0)`, and the zero platform is `Unknown`. -/
theorem zero_defaults (v : VersionCategory) (d : Department) (c : PostSaleCategory)
    (p : Platform) (ve : VersionExtension) (pe : PostSaleExtension) :
    (v.value = 0 ↔ v = VersionCategory.None) ∧
    (d.value = 0 ↔ d = Department.Unknown) ∧
    (c.value = 0 ↔ c = PostSaleCategory.None) ∧
    (p.value = 0 ↔ p = Platform.Unknown) ∧
    ((ve.version.value = 0 ∧ ve.department.value = 0) ↔
      ve = { version := VersionCategory.None, department := Department.Unknown }) ∧
    ((pe.postsale.value = 0 ∧ pe.data = 0) ↔
      pe = { postsale := PostSaleCategory.None, data := 0 }) := by
  refine ⟨?_, ?_, ?_, ?_, ?_, ?_⟩
  · cases v <;> decide
  · cases d <;> decide
  · cases c <;> decide
  · cases p <;> decide
  · rcases ve with ⟨x, y⟩
    cases x <;> cases y <;> decide
  · rcases pe with ⟨x, n⟩
    cases x <;> simp [PostSaleCategory.value]
